import Mathlib

/-!
Verification of the geometric core of the Grashof four-bar linkage
visualizer: the position solver `calculateJoints` and the classifier
`determineGrashof`, shallowly embedded from `src/index.tsx`.

The classifier is pure ordered-field arithmetic, so it is embedded
generically over a `LinearOrderedField` (instantiable at `ℚ` for concrete
evaluation and at `ℝ`).  The solver uses transcendental functions and is
embedded over `ℝ`, with JavaScript's `Math.atan2 y x` modelled as
`Complex.arg ⟨x, y⟩` and `NaN` results modelled as `Option.none`.
-/

namespace Grashof

/-- The four link lengths, `interface LinkLengths` of the source
(`frame` = d, `input` = a, `coupler` = b, `output` = c). -/
structure LinkLengths (α : Type) where
  frame : α
  input : α
  coupler : α
  output : α
deriving DecidableEq, Repr

/-- The returned joint frame, `interface JointCoordinates` of the source.
The C joint coordinates are `Option ℝ` because the source stores `NaN`
there when no assembly exists; `none` is the explicit no-value marker. -/
structure JointCoordinates where
  Ax : ℝ
  Ay : ℝ
  Bx : ℝ
  By : ℝ
  Cx : Option ℝ
  Cy : Option ℝ
  Dx : ℝ
  Dy : ℝ
  isValid : Bool

/-- The source's `enum GrashofType`. -/
inductive GrashofType
  | CRANK_ROCKER
  | DOUBLE_CRANK
  | DOUBLE_ROCKER_I
  | DOUBLE_ROCKER_II
  | CHANGE_POINT
  | INVALID
deriving DecidableEq, Repr

/-- The source's `enum LinkRole`. -/
inductive LinkRole
  | FRAME
  | INPUT
  | COUPLER
  | OUTPUT
deriving DecidableEq, Repr

/-! ### Position solver (`calculateJoints`, src/index.tsx lines 42-86) -/

/-- Degrees to radians: `const theta = (thetaInput * Math.PI) / 180`. -/
noncomputable def toRad (thetaInput : ℝ) : ℝ :=
  thetaInput * Real.pi / 180

/-- Source line `const Bx = a * Math.cos(theta)`. -/
noncomputable def bxOf (l : LinkLengths ℝ) (thetaInput : ℝ) : ℝ :=
  l.input * Real.cos (toRad thetaInput)

/-- Source line `const By = a * Math.sin(theta)`. -/
noncomputable def byOf (l : LinkLengths ℝ) (thetaInput : ℝ) : ℝ :=
  l.input * Real.sin (toRad thetaInput)

/-- Source line `const distBD = Math.sqrt(Math.pow(Dx - Bx, 2) + Math.pow(Dy - By, 2))`
with `Dx = d`, `Dy = 0`. -/
noncomputable def distBD (l : LinkLengths ℝ) (thetaInput : ℝ) : ℝ :=
  Real.sqrt ((l.frame - bxOf l thetaInput) ^ 2 + (0 - byOf l thetaInput) ^ 2)

/-- Source line `const cosAlpha = (c * c + distBD * distBD - b * b) / (2 * c * distBD)`. -/
noncomputable def cosAlpha (l : LinkLengths ℝ) (thetaInput : ℝ) : ℝ :=
  (l.output * l.output + distBD l thetaInput * distBD l thetaInput -
      l.coupler * l.coupler) / (2 * l.output * distBD l thetaInput)

/-- Source line `const alpha = Math.acos(Math.min(Math.max(cosAlpha, -1), 1))`. -/
noncomputable def alphaOf (l : LinkLengths ℝ) (thetaInput : ℝ) : ℝ :=
  Real.arccos (min (max (cosAlpha l thetaInput) (-1)) 1)

/-- Source line `const angleDB = Math.atan2(By - Dy, Bx - Dx)`, i.e. the principal
argument of the complex number `(Bx - Dx) + (By - Dy) i`. -/
noncomputable def angleDB (l : LinkLengths ℝ) (thetaInput : ℝ) : ℝ :=
  Complex.arg ⟨bxOf l thetaInput - l.frame, byOf l thetaInput - 0⟩

/-- Source line `const thetaOutput = angleDB - alpha`. -/
noncomputable def thetaOutput (l : LinkLengths ℝ) (thetaInput : ℝ) : ℝ :=
  angleDB l thetaInput - alphaOf l thetaInput

/-- The validity test of the source, line 65:
`distBD > b + c || distBD < Math.abs(b - c) || distBD === 0`. -/
noncomputable def invalidTest (l : LinkLengths ℝ) (thetaInput : ℝ) : Prop :=
  distBD l thetaInput > l.coupler + l.output ∨
    distBD l thetaInput < |l.coupler - l.output| ∨ distBD l thetaInput = 0

noncomputable instance (l : LinkLengths ℝ) (t : ℝ) :
    Decidable (invalidTest l t) := by
  unfold invalidTest; infer_instance

/-- The solver `calculateJoints` of src/index.tsx, lines 42-86. -/
noncomputable def calculateJoints (l : LinkLengths ℝ) (thetaInput : ℝ) :
    JointCoordinates :=
  if invalidTest l thetaInput then
    { Ax := 0, Ay := 0, Bx := bxOf l thetaInput, By := byOf l thetaInput,
      Cx := none, Cy := none, Dx := l.frame, Dy := 0, isValid := false }
  else
    { Ax := 0, Ay := 0, Bx := bxOf l thetaInput, By := byOf l thetaInput,
      Cx := some (l.frame + l.output * Real.cos (thetaOutput l thetaInput)),
      Cy := some (0 + l.output * Real.sin (thetaOutput l thetaInput)),
      Dx := l.frame, Dy := 0, isValid := true }

/-! ### Grashof classifier (`determineGrashof`, src/index.tsx lines 88-132) -/

/-- One entry of the role/length `map` array built by `determineGrashof`. -/
structure Entry (α : Type) where
  role : LinkRole
  len : α
deriving DecidableEq, Repr

/-- The `map` array of the source, in its fixed role order. -/
def roleMap {α : Type} (l : LinkLengths α) : List (Entry α) :=
  [⟨.FRAME, l.frame⟩, ⟨.INPUT, l.input⟩, ⟨.COUPLER, l.coupler⟩,
   ⟨.OUTPUT, l.output⟩]

/-- The scan `for (const item of map) if (item.len < shortest.len) ...`
initialised with `map[0]`. -/
def shortestEntry {α : Type} [LinearOrder α] (l : LinkLengths α) : Entry α :=
  (roleMap l).foldl (fun s item => if item.len < s.len then item else s)
    ⟨.FRAME, l.frame⟩

/-- The scan `for (const item of map) if (item.len > longest.len) ...`
initialised with `map[0]`. -/
def longestEntry {α : Type} [LinearOrder α] (l : LinkLengths α) : Entry α :=
  (roleMap l).foldl (fun s item => if item.len > s.len then item else s)
    ⟨.FRAME, l.frame⟩

/-- Source line `const S = shortest.len`. -/
def Sval {α : Type} [LinearOrder α] (l : LinkLengths α) : α :=
  (shortestEntry l).len

/-- Source line `const L = longest.len`. -/
def Lval {α : Type} [LinearOrder α] (l : LinkLengths α) : α :=
  (longestEntry l).len

/-- Source line `const totalSum = map.reduce((acc, curr) => acc + curr.len, 0)`. -/
def totalSum {α : Type} [AddCommMonoid α] (l : LinkLengths α) : α :=
  (roleMap l).foldl (fun acc curr => acc + curr.len) 0

/-- Source line `const PQ = totalSum - S - L`. -/
def PQ {α : Type} [LinearOrderedField α] (l : LinkLengths α) : α :=
  totalSum l - Sval l - Lval l

/-- The record returned by `determineGrashof`. -/
structure GrashofResult where
  type : GrashofType
  shortest : LinkRole
  longest : LinkRole
deriving DecidableEq, Repr

/-- The classifier `determineGrashof` of src/index.tsx, lines 88-132; the float literal
`0.01` is the real number 1/100. -/
def determineGrashof {α : Type} [LinearOrderedField α]
    (l : LinkLengths α) : GrashofResult :=
  let shortest := shortestEntry l
  let longest := longestEntry l
  let S := Sval l
  let L := Lval l
  let pq := PQ l
  if L > S + pq then
    ⟨.INVALID, shortest.role, longest.role⟩
  else if |S + L - pq| < 1 / 100 then
    ⟨.CHANGE_POINT, shortest.role, longest.role⟩
  else if S + L < pq then
    if shortest.role = .FRAME then
      ⟨.DOUBLE_CRANK, shortest.role, longest.role⟩
    else if shortest.role = .INPUT ∨ shortest.role = .OUTPUT then
      ⟨.CRANK_ROCKER, shortest.role, longest.role⟩
    else if shortest.role = .COUPLER then
      ⟨.DOUBLE_ROCKER_I, shortest.role, longest.role⟩
    else
      ⟨.DOUBLE_ROCKER_II, shortest.role, longest.role⟩
  else
    ⟨.DOUBLE_ROCKER_II, shortest.role, longest.role⟩

/-! ### Specification-side definitions (for refinement claims) -/

/-- Modelled from the spec (§4.2 step 2): the shortest role is the first
role in the fixed order frame, input, coupler, output whose length equals
the minimum of the four lengths. -/
def specShortestRole {α : Type} [LinearOrder α] (l : LinkLengths α) :
    LinkRole :=
  let m := min (min (min l.frame l.input) l.coupler) l.output
  if l.frame = m then .FRAME
  else if l.input = m then .INPUT
  else if l.coupler = m then .COUPLER
  else .OUTPUT

/-- Modelled from the spec (§4.2 step 2): the longest role is the first
role in the fixed order frame, input, coupler, output whose length equals
the maximum of the four lengths. -/
def specLongestRole {α : Type} [LinearOrder α] (l : LinkLengths α) :
    LinkRole :=
  let m := max (max (max l.frame l.input) l.coupler) l.output
  if l.frame = m then .FRAME
  else if l.input = m then .INPUT
  else if l.coupler = m then .COUPLER
  else .OUTPUT

/-- Euclidean distance between two planar points. -/
noncomputable def ptDist (x1 y1 x2 y2 : ℝ) : ℝ :=
  Real.sqrt ((x1 - x2) ^ 2 + (y1 - y2) ^ 2)

/-! ### Concrete example link sets from the spec (§8) -/

/-- Spec example `{frame:200, input:80, coupler:180, output:140}`. -/
def exCR : LinkLengths ℚ := ⟨200, 80, 180, 140⟩

/-- Spec example `{frame:50, input:10, coupler:10, output:10}`. -/
def exInv : LinkLengths ℚ := ⟨50, 10, 10, 10⟩

/-- Spec example `{frame:100, input:100, coupler:100, output:100}`. -/
def exCP : LinkLengths ℚ := ⟨100, 100, 100, 100⟩

/-- A link set whose `distBD` at angle 0 sits exactly on the boundary
`coupler + output` (B = (1,0), D = (4,0), distBD = 3 = 1 + 2). -/
def exBound : LinkLengths ℝ := ⟨4, 1, 1, 2⟩

/-- A link set that assembles at angle 0 (B = (1,0), D = (3,0),
distBD = 2, with coupler 1 and output 2). -/
def exRT : LinkLengths ℝ := ⟨3, 1, 1, 2⟩

/-- The all-ones link set, used at angle 0 to witness the solver claims
(at that angle B and D coincide, so the solver reports invalid). -/
def exUnit : LinkLengths ℝ := ⟨1, 1, 1, 1⟩

/-! ### Classifier lemmas -/

/-- Whatever branch is taken, the returned `shortest` field is the role
found by the linear scan. -/
theorem determineGrashof_shortest {α : Type} [LinearOrderedField α]
    (l : LinkLengths α) :
    (determineGrashof l).shortest = (shortestEntry l).role := by
  simp only [determineGrashof]
  split_ifs <;> rfl

/-- Whatever branch is taken, the returned `longest` field is the role
found by the linear scan. -/
theorem determineGrashof_longest {α : Type} [LinearOrderedField α]
    (l : LinkLengths α) :
    (determineGrashof l).longest = (longestEntry l).role := by
  simp only [determineGrashof]
  split_ifs <;> rfl

set_option maxHeartbeats 1000000 in
/-- The stable linear scan with a strict comparison returns the first role
in the fixed order attaining the minimum length. -/
theorem shortestEntry_role_spec {α : Type} [LinearOrderedField α]
    (l : LinkLengths α) :
    (shortestEntry l).role = specShortestRole l := by
  unfold shortestEntry roleMap specShortestRole
  simp only [List.foldl, lt_irrefl, if_false, min_def]
  split_ifs <;>
    first
    | rfl
    | (exfalso; linarith)
    | (exfalso
       try simp only [← lt_or_lt_iff_ne] at *
       casesm* _ ∨ _ <;> first | linarith | simp_all)
    | (exfalso; simp_all)

set_option maxHeartbeats 1000000 in
/-- The stable linear scan with a strict comparison returns the first role
in the fixed order attaining the maximum length. -/
theorem longestEntry_role_spec {α : Type} [LinearOrderedField α]
    (l : LinkLengths α) :
    (longestEntry l).role = specLongestRole l := by
  unfold longestEntry roleMap specLongestRole
  simp only [List.foldl, lt_irrefl, gt_iff_lt, if_false, max_def]
  split_ifs <;>
    first
    | rfl
    | (exfalso; linarith)
    | (exfalso
       try simp only [← lt_or_lt_iff_ne] at *
       casesm* _ ∨ _ <;> first | linarith | simp_all)

/-! ### Concrete evaluations of the classifier building blocks -/

theorem Sval_exCR : Sval exCR = 80 := by decide

theorem Lval_exCR : Lval exCR = 200 := by decide

theorem PQ_exCR : PQ exCR = 320 := by
  norm_num [PQ, totalSum, Sval, Lval, shortestEntry, longestEntry, roleMap,
    exCR]

theorem Sval_exInv : Sval exInv = 10 := by decide

theorem Lval_exInv : Lval exInv = 50 := by decide

theorem PQ_exInv : PQ exInv = 20 := by
  norm_num [PQ, totalSum, Sval, Lval, shortestEntry, longestEntry, roleMap,
    exInv]

theorem Sval_exCP : Sval exCP = 100 := by decide

theorem Lval_exCP : Lval exCP = 100 := by decide

theorem PQ_exCP : PQ exCP = 200 := by
  norm_num [PQ, totalSum, Sval, Lval, shortestEntry, longestEntry, roleMap,
    exCP]

theorem exCR_h1 : ¬(Lval exCR > Sval exCR + PQ exCR) := by
  rw [Sval_exCR, Lval_exCR, PQ_exCR]; norm_num

theorem exCR_h2 : ¬(|Sval exCR + Lval exCR - PQ exCR| < 1 / 100) := by
  rw [Sval_exCR, Lval_exCR, PQ_exCR]; norm_num

theorem exInv_h : Lval exInv > Sval exInv + PQ exInv := by
  rw [Sval_exInv, Lval_exInv, PQ_exInv]; norm_num

theorem exCP_h1 : ¬(Lval exCP > Sval exCP + PQ exCP) := by
  rw [Sval_exCP, Lval_exCP, PQ_exCP]; norm_num

theorem exCP_h2 : |Sval exCP + Lval exCP - PQ exCP| < 1 / 100 := by
  rw [Sval_exCP, Lval_exCP, PQ_exCP]; norm_num

/-! ### Claim theorems for the classifier -/

/-- C4: for every LinkSet that passes the Invalid and Change Point checks
and satisfies S+L < P+Q, `classify` returns Double-Crank when the frame
role holds the shortest length, Crank-Rocker when the input or output role
does, Double-Rocker (Type I) when the coupler role does; when S+L > P+Q it
returns Double-Rocker (Type II). -/
theorem grashof_subcases {α : Type} [LinearOrderedField α]
    (l : LinkLengths α)
    (h1 : ¬(Lval l > Sval l + PQ l))
    (h2 : ¬(|Sval l + Lval l - PQ l| < 1 / 100)) :
    (Sval l + Lval l < PQ l →
      (((shortestEntry l).role = .FRAME →
          (determineGrashof l).type = .DOUBLE_CRANK) ∧
        ((shortestEntry l).role = .INPUT ∨ (shortestEntry l).role = .OUTPUT →
          (determineGrashof l).type = .CRANK_ROCKER) ∧
        ((shortestEntry l).role = .COUPLER →
          (determineGrashof l).type = .DOUBLE_ROCKER_I))) ∧
    (Sval l + Lval l > PQ l →
      (determineGrashof l).type = .DOUBLE_ROCKER_II) := by
  simp only [determineGrashof]
  rw [if_neg h1, if_neg h2]
  constructor
  · intro h3
    rw [if_pos h3]
    refine ⟨fun hr => by simp [hr], fun hr => ?_, fun hr => by simp [hr]⟩
    rcases hr with hr | hr <;> simp [hr]
  · intro h4
    rw [if_neg (lt_asymm h4)]

/-- C4 witness: the hypotheses and conclusion at the concrete link set
`{frame:200, input:80, coupler:180, output:140}`. -/
theorem grashof_subcases_witness :
    (¬(Lval exCR > Sval exCR + PQ exCR)) ∧
    (¬(|Sval exCR + Lval exCR - PQ exCR| < 1 / 100)) ∧
    ((Sval exCR + Lval exCR < PQ exCR →
      (((shortestEntry exCR).role = .FRAME →
          (determineGrashof exCR).type = .DOUBLE_CRANK) ∧
        ((shortestEntry exCR).role = .INPUT ∨
            (shortestEntry exCR).role = .OUTPUT →
          (determineGrashof exCR).type = .CRANK_ROCKER) ∧
        ((shortestEntry exCR).role = .COUPLER →
          (determineGrashof exCR).type = .DOUBLE_ROCKER_I))) ∧
    (Sval exCR + Lval exCR > PQ exCR →
      (determineGrashof exCR).type = .DOUBLE_ROCKER_II)) :=
  ⟨exCR_h1, exCR_h2, grashof_subcases exCR exCR_h1 exCR_h2⟩

/-- C5 counterexample: on `{frame:200, input:80, coupler:180, output:140}`
the longest role returned by the classifier is not the coupler (the frame,
of length 200, is longer than the coupler, of length 180). -/
theorem classify_example_longest_not_coupler :
    (determineGrashof exCR).longest ≠ .COUPLER := by
  rw [determineGrashof_longest]
  decide

/-- C5 amended: `classify({frame:200, input:80, coupler:180, output:140})`
returns Crank-Rocker with shortestRole = input (length 80) and
longestRole = frame (length 200). -/
theorem classify_example_crank_rocker :
    determineGrashof exCR = ⟨.CRANK_ROCKER, .INPUT, .FRAME⟩ ∧
      Sval exCR = 80 ∧ Lval exCR = 200 := by
  refine ⟨?_, by decide, by decide⟩
  norm_num [determineGrashof, Sval, Lval, PQ, totalSum, shortestEntry,
    longestEntry, roleMap, exCR]
  try decide

/-- C6: whenever L > S + (P+Q), `classify` returns the Invalid category. -/
theorem classify_invalid_of_long {α : Type} [LinearOrderedField α]
    (l : LinkLengths α) (h : Lval l > Sval l + PQ l) :
    (determineGrashof l).type = .INVALID := by
  simp only [determineGrashof]
  rw [if_pos h]

/-- C6 witness: the hypothesis and conclusion at the concrete link set
`{frame:50, input:10, coupler:10, output:10}`. -/
theorem classify_invalid_of_long_witness :
    Lval exInv > Sval exInv + PQ exInv ∧
      (determineGrashof exInv).type = .INVALID :=
  ⟨exInv_h, classify_invalid_of_long exInv exInv_h⟩

/-- C7: if the Invalid check passes and |(S+L) − (P+Q)| < 0.01, `classify`
returns the Change Point category. -/
theorem classify_change_point {α : Type} [LinearOrderedField α]
    (l : LinkLengths α)
    (h1 : ¬(Lval l > Sval l + PQ l))
    (h2 : |Sval l + Lval l - PQ l| < 1 / 100) :
    (determineGrashof l).type = .CHANGE_POINT := by
  simp only [determineGrashof]
  rw [if_neg h1, if_pos h2]

/-- C7 witness: the hypotheses and conclusion at the concrete link set
`{frame:100, input:100, coupler:100, output:100}`. -/
theorem classify_change_point_witness :
    (¬(Lval exCP > Sval exCP + PQ exCP)) ∧
      |Sval exCP + Lval exCP - PQ exCP| < 1 / 100 ∧
      (determineGrashof exCP).type = .CHANGE_POINT :=
  ⟨exCP_h1, exCP_h2, classify_change_point exCP exCP_h1 exCP_h2⟩

/-- C8: the classifier resolves ties for the shortest and longest role by
first-encountered precedence in the fixed role order frame, input,
coupler, output (the stable linear scan with strict comparisons); in
particular when all four lengths are equal both roles are the frame. -/
theorem classify_tiebreak_first_role {α : Type} [LinearOrderedField α]
    (l : LinkLengths α) (x : α) :
    ((determineGrashof l).shortest = specShortestRole l ∧
      (determineGrashof l).longest = specLongestRole l) ∧
    ((determineGrashof (⟨x, x, x, x⟩ : LinkLengths α)).shortest = .FRAME ∧
      (determineGrashof (⟨x, x, x, x⟩ : LinkLengths α)).longest = .FRAME) := by
  refine ⟨⟨?_, ?_⟩, ?_, ?_⟩
  · rw [determineGrashof_shortest, shortestEntry_role_spec]
  · rw [determineGrashof_longest, longestEntry_role_spec]
  · rw [determineGrashof_shortest, shortestEntry_role_spec]
    simp [specShortestRole]
  · rw [determineGrashof_longest, longestEntry_role_spec]
    simp [specLongestRole]

/-- C10: the classifier is total: it always returns one of the six
categories, and the fall-through Double-Rocker (Type II) return is reached
only when S+L > P+Q, outside the 0.01 tolerance band (the role sub-cases
inside the S+L < P+Q branch are exhaustive). -/
theorem classify_total_type2_only_above {α : Type} [LinearOrderedField α]
    (l : LinkLengths α) :
    ((determineGrashof l).type = .CRANK_ROCKER ∨
      (determineGrashof l).type = .DOUBLE_CRANK ∨
      (determineGrashof l).type = .DOUBLE_ROCKER_I ∨
      (determineGrashof l).type = .DOUBLE_ROCKER_II ∨
      (determineGrashof l).type = .CHANGE_POINT ∨
      (determineGrashof l).type = .INVALID) ∧
    ((determineGrashof l).type = .DOUBLE_ROCKER_II →
      Sval l + Lval l > PQ l ∧
        ¬(|Sval l + Lval l - PQ l| < 1 / 100)) := by
  constructor
  · cases h : (determineGrashof l).type <;> simp [h]
  · intro hdr
    simp only [determineGrashof] at hdr
    split_ifs at hdr with h1 h2 h3 h4 h5 h6 <;> try simp at hdr
    · exfalso
      cases hrole : (shortestEntry l).role
      · exact h4 hrole
      · exact h5 (Or.inl hrole)
      · exact h6 hrole
      · exact h5 (Or.inr hrole)
    · refine ⟨lt_of_le_of_ne (not_lt.mp h3) ?_, h2⟩
      intro heq
      apply h2
      rw [← heq, sub_self, abs_zero]
      norm_num

/-! ### Solver lemmas -/

theorem distBD_nonneg (l : LinkLengths ℝ) (t : ℝ) : 0 ≤ distBD l t :=
  Real.sqrt_nonneg _

/-- The A, B, D coordinates do not depend on the branch taken. -/
theorem calculateJoints_Ax (l : LinkLengths ℝ) (t : ℝ) :
    (calculateJoints l t).Ax = 0 := by
  unfold calculateJoints; split_ifs <;> rfl

theorem calculateJoints_Ay (l : LinkLengths ℝ) (t : ℝ) :
    (calculateJoints l t).Ay = 0 := by
  unfold calculateJoints; split_ifs <;> rfl

theorem calculateJoints_Bx (l : LinkLengths ℝ) (t : ℝ) :
    (calculateJoints l t).Bx = bxOf l t := by
  unfold calculateJoints; split_ifs <;> rfl

theorem calculateJoints_By (l : LinkLengths ℝ) (t : ℝ) :
    (calculateJoints l t).By = byOf l t := by
  unfold calculateJoints; split_ifs <;> rfl

theorem calculateJoints_Dx (l : LinkLengths ℝ) (t : ℝ) :
    (calculateJoints l t).Dx = l.frame := by
  unfold calculateJoints; split_ifs <;> rfl

theorem calculateJoints_Dy (l : LinkLengths ℝ) (t : ℝ) :
    (calculateJoints l t).Dy = 0 := by
  unfold calculateJoints; split_ifs <;> rfl

/-- The validity flag is true exactly when the source's invalidity test
fails. -/
theorem calculateJoints_isValid (l : LinkLengths ℝ) (t : ℝ) :
    (calculateJoints l t).isValid = true ↔ ¬ invalidTest l t := by
  unfold calculateJoints
  split_ifs with h <;> simp [h]

/-- Failing the invalidity test is the conjunction of the spec's validity
conditions. -/
theorem not_invalidTest_iff (l : LinkLengths ℝ) (t : ℝ) :
    ¬ invalidTest l t ↔
      |l.coupler - l.output| ≤ distBD l t ∧
        distBD l t ≤ l.coupler + l.output ∧ 0 < distBD l t := by
  unfold invalidTest
  push_neg
  constructor
  · rintro ⟨h1, h2, h3⟩
    exact ⟨h2, h1, lt_of_le_of_ne (distBD_nonneg l t) (Ne.symm h3)⟩
  · rintro ⟨h1, h2, h3⟩
    exact ⟨h2, h1, ne_of_gt h3⟩

/-- The pythagorean computation of the distance from B to the origin. -/
theorem dist_B_origin (l : LinkLengths ℝ) (t : ℝ) (ha : 0 ≤ l.input) :
    ptDist (bxOf l t) (byOf l t) 0 0 = l.input := by
  unfold ptDist bxOf byOf
  rw [sub_zero, sub_zero, mul_pow, mul_pow, ← mul_add,
    Real.cos_sq_add_sin_sq, mul_one, Real.sqrt_sq ha]

/-! ### Claim theorems for the solver -/

/-- C1: for positive lengths and any angle, the solver reports valid iff
|coupler − output| ≤ distBD ≤ coupler + output and distBD > 0; when it
reports invalid, A, B, D are populated and the C coordinates carry the
explicit no-value marker. -/
theorem solve_isValid_iff (l : LinkLengths ℝ) (t : ℝ)
    (hf : 0 < l.frame) (ha : 0 < l.input)
    (hb : 0 < l.coupler) (hc : 0 < l.output) :
    ((calculateJoints l t).isValid = true ↔
      |l.coupler - l.output| ≤ distBD l t ∧
        distBD l t ≤ l.coupler + l.output ∧ 0 < distBD l t) ∧
    ((calculateJoints l t).isValid = false →
      (calculateJoints l t).Ax = 0 ∧ (calculateJoints l t).Ay = 0 ∧
      (calculateJoints l t).Bx = l.input * Real.cos (toRad t) ∧
      (calculateJoints l t).By = l.input * Real.sin (toRad t) ∧
      (calculateJoints l t).Dx = l.frame ∧ (calculateJoints l t).Dy = 0 ∧
      (calculateJoints l t).Cx = none ∧ (calculateJoints l t).Cy = none) := by
  constructor
  · rw [calculateJoints_isValid, not_invalidTest_iff]
  · intro hinv
    have hmem : invalidTest l t := by
      by_contra hcon
      rw [← calculateJoints_isValid] at hcon
      simp [hinv] at hcon
    refine ⟨calculateJoints_Ax l t, calculateJoints_Ay l t,
      calculateJoints_Bx l t, calculateJoints_By l t,
      calculateJoints_Dx l t, calculateJoints_Dy l t, ?_, ?_⟩ <;>
      (unfold calculateJoints; rw [if_pos hmem])

/-- C1 witness: the claim instantiated at the all-ones link set and
angle 0. -/
theorem solve_isValid_iff_witness :
    (0:ℝ) < exUnit.frame ∧ (0:ℝ) < exUnit.input ∧
    (0:ℝ) < exUnit.coupler ∧ (0:ℝ) < exUnit.output ∧
    (((calculateJoints exUnit 0).isValid = true ↔
      |exUnit.coupler - exUnit.output| ≤ distBD exUnit 0 ∧
        distBD exUnit 0 ≤ exUnit.coupler + exUnit.output ∧
        0 < distBD exUnit 0) ∧
    ((calculateJoints exUnit 0).isValid = false →
      (calculateJoints exUnit 0).Ax = 0 ∧ (calculateJoints exUnit 0).Ay = 0 ∧
      (calculateJoints exUnit 0).Bx = exUnit.input * Real.cos (toRad 0) ∧
      (calculateJoints exUnit 0).By = exUnit.input * Real.sin (toRad 0) ∧
      (calculateJoints exUnit 0).Dx = exUnit.frame ∧
      (calculateJoints exUnit 0).Dy = 0 ∧
      (calculateJoints exUnit 0).Cx = none ∧
      (calculateJoints exUnit 0).Cy = none)) :=
  ⟨zero_lt_one, zero_lt_one, zero_lt_one, zero_lt_one,
    solve_isValid_iff exUnit 0 zero_lt_one zero_lt_one zero_lt_one
      zero_lt_one⟩

/-- C3: in both branches the returned frame has A = (0,0), D = (frame,0)
(so A and D depend only on the frame length, never on the angle), and B
lies at distance `input` from A. -/
theorem solve_baseline (l : LinkLengths ℝ) (t : ℝ) (ha : 0 < l.input) :
    (calculateJoints l t).Ax = 0 ∧ (calculateJoints l t).Ay = 0 ∧
    (calculateJoints l t).Dx = l.frame ∧ (calculateJoints l t).Dy = 0 ∧
    ptDist (calculateJoints l t).Bx (calculateJoints l t).By
      (calculateJoints l t).Ax (calculateJoints l t).Ay = l.input := by
  refine ⟨calculateJoints_Ax l t, calculateJoints_Ay l t,
    calculateJoints_Dx l t, calculateJoints_Dy l t, ?_⟩
  rw [calculateJoints_Ax, calculateJoints_Ay, calculateJoints_Bx,
    calculateJoints_By]
  exact dist_B_origin l t ha.le

/-- C3 witness: the claim instantiated at the all-ones link set and
angle 0. -/
theorem solve_baseline_witness :
    (0:ℝ) < exUnit.input ∧
    ((calculateJoints exUnit 0).Ax = 0 ∧ (calculateJoints exUnit 0).Ay = 0 ∧
    (calculateJoints exUnit 0).Dx = exUnit.frame ∧
    (calculateJoints exUnit 0).Dy = 0 ∧
    ptDist (calculateJoints exUnit 0).Bx (calculateJoints exUnit 0).By
      (calculateJoints exUnit 0).Ax (calculateJoints exUnit 0).Ay
      = exUnit.input) :=
  ⟨zero_lt_one, solve_baseline exUnit 0 zero_lt_one⟩

/-- C9: the law-of-cosines argument is clamped into [−1, 1] before the
arccosine (so `alpha` is always a well-defined real, never NaN), and at
the exact boundary `distBD = coupler + output` the angle `alpha` is 0. -/
theorem clamp_bounds_boundary (l : LinkLengths ℝ) (t : ℝ)
    (hb : 0 < l.coupler) (hc : 0 < l.output) :
    -1 ≤ min (max (cosAlpha l t) (-1)) 1 ∧
      min (max (cosAlpha l t) (-1)) 1 ≤ 1 ∧
      (distBD l t = l.coupler + l.output → alphaOf l t = 0) := by
  refine ⟨le_min (le_max_right _ _) (by norm_num), min_le_right _ _, ?_⟩
  intro hbd
  have h1 : cosAlpha l t = 1 := by
    unfold cosAlpha
    rw [hbd]
    have hbc : l.coupler + l.output ≠ 0 := by positivity
    have hcne : l.output ≠ 0 := ne_of_gt hc
    field_simp
    ring
  unfold alphaOf
  rw [h1]
  norm_num [Real.arccos_one]

/-- Helper for the C9 witness: the boundary configuration is hit exactly
at `exBound` with angle 0. -/
theorem exBound_bd : distBD exBound 0 = exBound.coupler + exBound.output := by
  unfold distBD bxOf byOf toRad exBound
  norm_num
  rw [show (9:ℝ) = 3 ^ 2 by norm_num,
    Real.sqrt_sq (by norm_num : (0:ℝ) ≤ 3)]

set_option maxHeartbeats 1000000 in
/-- C2: when the solver reports valid, the returned joint C lies exactly
at distance `coupler` from B and at distance `output` from D (the
law-of-cosines construction round-trips the two circle radii in real
arithmetic). -/
theorem solve_valid_round_trip (l : LinkLengths ℝ) (t : ℝ)
    (hb : 0 < l.coupler) (hc : 0 < l.output)
    (hv : (calculateJoints l t).isValid = true) :
    ∃ cx cy, (calculateJoints l t).Cx = some cx ∧
      (calculateJoints l t).Cy = some cy ∧
      ptDist (calculateJoints l t).Bx (calculateJoints l t).By cx cy
        = l.coupler ∧
      ptDist cx cy (calculateJoints l t).Dx (calculateJoints l t).Dy
        = l.output := by
  have hval : ¬ invalidTest l t := (calculateJoints_isValid l t).mp hv
  obtain ⟨hlo, hhi, hpos⟩ := (not_invalidTest_iff l t).mp hval
  obtain ⟨hlo1, hlo2⟩ := abs_sub_le_iff.mp hlo
  have hδne : distBD l t ≠ 0 := ne_of_gt hpos
  have hcne : l.output ≠ 0 := ne_of_gt hc
  have hub : cosAlpha l t ≤ 1 := by
    unfold cosAlpha
    rw [div_le_one (by positivity)]
    nlinarith
  have hlb : -1 ≤ cosAlpha l t := by
    unfold cosAlpha
    rw [le_div_iff (by positivity)]
    nlinarith
  have hcosα : Real.cos (alphaOf l t) = cosAlpha l t := by
    unfold alphaOf
    rw [max_eq_left hlb, min_eq_left hub, Real.cos_arccos hlb hub]
  have hA : Real.cos (alphaOf l t) * (2 * l.output * distBD l t) =
      l.output * l.output + distBD l t * distBD l t -
        l.coupler * l.coupler := by
    rw [hcosα]
    unfold cosAlpha
    field_simp
  have hz : (⟨bxOf l t - l.frame, byOf l t - 0⟩ : ℂ) ≠ 0 := by
    intro h0
    apply hδne
    have hre : bxOf l t - l.frame = 0 := by
      simpa using congrArg Complex.re h0
    have him : byOf l t - 0 = 0 := by
      simpa using congrArg Complex.im h0
    unfold distBD
    rw [show l.frame - bxOf l t = -(bxOf l t - l.frame) by ring, hre,
      show (0:ℝ) - byOf l t = -(byOf l t - 0) by ring, him]
    norm_num
  have habs : Complex.abs ⟨bxOf l t - l.frame, byOf l t - 0⟩ = distBD l t := by
    rw [Complex.abs_apply, Complex.normSq_mk]
    unfold distBD
    congr 1
    ring
  have hcosψ : Real.cos (angleDB l t) = (bxOf l t - l.frame) / distBD l t := by
    unfold angleDB
    rw [Complex.cos_arg hz, habs]
  have hsinψ : Real.sin (angleDB l t) = (byOf l t - 0) / distBD l t := by
    unfold angleDB
    rw [Complex.sin_arg, habs]
  have hbx : bxOf l t = l.frame + distBD l t * Real.cos (angleDB l t) := by
    rw [hcosψ]
    field_simp
  have hby : byOf l t = distBD l t * Real.sin (angleDB l t) := by
    rw [hsinψ]
    field_simp
  have hψ1 : Real.sin (angleDB l t) ^ 2 + Real.cos (angleDB l t) ^ 2 = 1 :=
    Real.sin_sq_add_cos_sq _
  have hα1 : Real.sin (alphaOf l t) ^ 2 + Real.cos (alphaOf l t) ^ 2 = 1 :=
    Real.sin_sq_add_cos_sq _
  refine ⟨l.frame + l.output * Real.cos (thetaOutput l t),
    0 + l.output * Real.sin (thetaOutput l t), ?_, ?_, ?_, ?_⟩
  · unfold calculateJoints
    rw [if_neg hval]
  · unfold calculateJoints
    rw [if_neg hval]
  · rw [calculateJoints_Bx, calculateJoints_By]
    unfold ptDist
    have key : (bxOf l t -
          (l.frame + l.output * Real.cos (thetaOutput l t))) ^ 2 +
        (byOf l t - (0 + l.output * Real.sin (thetaOutput l t))) ^ 2 =
        l.coupler ^ 2 := by
      unfold thetaOutput
      rw [Real.cos_sub, Real.sin_sub, hbx, hby]
      linear_combination
        (distBD l t ^ 2 -
            2 * l.output * distBD l t * Real.cos (alphaOf l t) +
            l.output ^ 2) * hψ1 +
          l.output ^ 2 *
            (Real.sin (angleDB l t) ^ 2 + Real.cos (angleDB l t) ^ 2) *
            hα1 - hA
    rw [key, Real.sqrt_sq hb.le]
  · rw [calculateJoints_Dx, calculateJoints_Dy]
    unfold ptDist
    have key2 : (l.frame + l.output * Real.cos (thetaOutput l t) -
          l.frame) ^ 2 +
        (0 + l.output * Real.sin (thetaOutput l t) - 0) ^ 2 =
        l.output ^ 2 := by
      linear_combination l.output ^ 2 *
        Real.sin_sq_add_cos_sq (thetaOutput l t)
    rw [key2, Real.sqrt_sq hc.le]

/-- Helper for the C2 witness: the distance between B and D at `exRT`
and angle 0. -/
theorem distBD_exRT : distBD exRT 0 = 2 := by
  unfold distBD bxOf byOf toRad exRT
  norm_num
  rw [show (4:ℝ) = 2 ^ 2 by norm_num,
    Real.sqrt_sq (by norm_num : (0:ℝ) ≤ 2)]

/-- Helper for the C2 witness: the solver reports a valid assembly at
`exRT` and angle 0. -/
theorem exRT_valid : (calculateJoints exRT 0).isValid = true := by
  rw [calculateJoints_isValid, not_invalidTest_iff, distBD_exRT]
  refine ⟨?_, by norm_num [exRT], by norm_num⟩
  rw [show |exRT.coupler - exRT.output| = 1 by
    rw [abs_sub_comm]; norm_num [exRT]]
  norm_num

/-- C2 witness: the claim instantiated at the link set `exRT` and
angle 0. -/
theorem solve_valid_round_trip_witness :
    (0:ℝ) < exRT.coupler ∧ (0:ℝ) < exRT.output ∧
    (calculateJoints exRT 0).isValid = true ∧
    (∃ cx cy, (calculateJoints exRT 0).Cx = some cx ∧
      (calculateJoints exRT 0).Cy = some cy ∧
      ptDist (calculateJoints exRT 0).Bx (calculateJoints exRT 0).By cx cy
        = exRT.coupler ∧
      ptDist cx cy (calculateJoints exRT 0).Dx (calculateJoints exRT 0).Dy
        = exRT.output) :=
  ⟨zero_lt_one, zero_lt_two, exRT_valid,
    solve_valid_round_trip exRT 0 zero_lt_one zero_lt_two exRT_valid⟩

/-- C9 witness: the claim instantiated at the boundary link set and
angle 0, including the boundary implication. -/
theorem clamp_bounds_boundary_witness :
    (0:ℝ) < exBound.coupler ∧ (0:ℝ) < exBound.output ∧
    (-1 ≤ min (max (cosAlpha exBound 0) (-1)) 1 ∧
      min (max (cosAlpha exBound 0) (-1)) 1 ≤ 1 ∧
      (distBD exBound 0 = exBound.coupler + exBound.output →
        alphaOf exBound 0 = 0)) ∧
    alphaOf exBound 0 = 0 :=
  ⟨zero_lt_one, zero_lt_two,
    clamp_bounds_boundary exBound 0 zero_lt_one zero_lt_two,
    (clamp_bounds_boundary exBound 0 zero_lt_one zero_lt_two).2.2 exBound_bd⟩

end Grashof
